import Mathlib

/-!
Verification of the price-series / regression backend (`src/app.py`).

The file embeds the visible computation of `app.py` shallowly:

* the ordinary-least-squares fit performed by `sklearn.LinearRegression`
  on a single feature (closed-form slope and intercept),
* the feature standardisation performed by `sklearn.StandardScaler`
  (sample mean, population standard deviation),
* the unscaled-coefficient recovery done by `generate_regression_data`
  (`mean_days`, `std_days`, `actual_slope`, `actual_intercept`),
* the payload shaping and branch structure of `generate_regression_data`,
  `generate_data`, and the three Flask endpoints `get_data`,
  `analyze_hedge` and `get_portfolio_metrics`.

External collaborators (yfinance, the hedge analyzer, the Monte-Carlo
portfolio routines) are modelled as parameters; a raised Python
exception is an `Except.error`.  Floating-point numbers are modelled by
real numbers, so "within floating-point tolerance" statements become
exact identities over `ℝ`.
-/

open Finset

/-! ### Ordinary least squares on a single feature -/

/-- Sample mean of the first `n` values of `f` — `np.mean`, and the
`mean_` of `StandardScaler`.  (Lean's junk value `x / 0 = 0` makes the
`n = 0` case harmless; the code never reaches it because of the
`df.empty` guard.) -/
noncomputable def sampleMean (n : ℕ) (f : ℕ → ℝ) : ℝ :=
  (∑ i ∈ range n, f i) / n

/-- Closed-form OLS slope of `y` against the single feature `x` over
observations `0..n-1`: the slope computed by
`LinearRegression().fit(X, y)` for a one-column `X`. -/
noncomputable def olsSlope (n : ℕ) (x y : ℕ → ℝ) : ℝ :=
  (∑ i ∈ range n, (x i - sampleMean n x) * (y i - sampleMean n y)) /
    (∑ i ∈ range n, (x i - sampleMean n x) ^ 2)

/-- Closed-form OLS intercept (`model.intercept_`). -/
noncomputable def olsIntercept (n : ℕ) (x y : ℕ → ℝ) : ℝ :=
  sampleMean n y - olsSlope n x y * sampleMean n x

/-! ### StandardScaler on the day index `0..n-1`

`X = np.arange(len(df))`, `X_scaled = scaler.fit_transform(X)`. -/

/-- Mean of the day index `0..n-1` as computed by `StandardScaler.fit`. -/
noncomputable def scalerMean (n : ℕ) : ℝ :=
  sampleMean n (fun i => (i : ℝ))

/-- Population standard deviation of the day index `0..n-1` as computed
by `StandardScaler.fit`. -/
noncomputable def scalerStd (n : ℕ) : ℝ :=
  Real.sqrt ((∑ i ∈ range n, ((i : ℝ) - scalerMean n) ^ 2) / n)

/-- The standardised day index: row `i` of `X_scaled`. -/
noncomputable def zscore (n : ℕ) (i : ℕ) : ℝ :=
  ((i : ℝ) - scalerMean n) / scalerStd n

/-! ### The coefficient recovery of `generate_regression_data`

`mean_days = (n_days - 1) / 2`,
`std_days = np.sqrt((n_days - 1) * (n_days + 1) / 12)`,
`actual_slope = model.coef_[0] / std_days`,
`actual_intercept = model.intercept_ - (model.coef_[0] * mean_days / std_days)`. -/

/-- `mean_days` of `generate_regression_data`. -/
noncomputable def meanDays (n : ℕ) : ℝ := ((n : ℝ) - 1) / 2

/-- `std_days` of `generate_regression_data`. -/
noncomputable def stdDays (n : ℕ) : ℝ :=
  Real.sqrt (((n : ℝ) - 1) * ((n : ℝ) + 1) / 12)

/-- `actual_slope`: the scaled slope divided by `std_days`. -/
noncomputable def actualSlope (n : ℕ) (y : ℕ → ℝ) : ℝ :=
  olsSlope n (zscore n) y / stdDays n

/-- `actual_intercept`: the scaled intercept minus
`scaled_slope * mean_days / std_days`. -/
noncomputable def actualIntercept (n : ℕ) (y : ℕ → ℝ) : ℝ :=
  olsIntercept n (zscore n) y - olsSlope n (zscore n) y * meanDays n / stdDays n

/-! ### Arithmetic facts about the day index -/

lemma sum_range_cast (n : ℕ) :
    (∑ i ∈ range n, (i : ℝ)) = n * (n - 1) / 2 := by
  induction n with
  | zero => simp
  | succ m ih =>
    rw [Finset.sum_range_succ, ih]
    push_cast
    ring

lemma sum_range_sq_cast (n : ℕ) :
    (∑ i ∈ range n, (i : ℝ) ^ 2) = n * (n - 1) * (2 * n - 1) / 6 := by
  induction n with
  | zero => simp
  | succ m ih =>
    rw [Finset.sum_range_succ, ih]
    push_cast
    ring

lemma scalerMean_eq (n : ℕ) (hn : 1 ≤ n) : scalerMean n = meanDays n := by
  have hn0 : (n : ℝ) ≠ 0 := Nat.cast_ne_zero.mpr (by omega)
  rw [scalerMean, sampleMean, sum_range_cast, meanDays]
  field_simp
  ring

lemma sum_sq_dev_eq (n : ℕ) (hn : 1 ≤ n) :
    (∑ i ∈ range n, ((i : ℝ) - scalerMean n) ^ 2)
      = n * (((n : ℝ) - 1) * ((n : ℝ) + 1) / 12) := by
  have hn0 : (n : ℝ) ≠ 0 := Nat.cast_ne_zero.mpr (by omega)
  have hmean : scalerMean n = ((n : ℝ) - 1) / 2 := scalerMean_eq n hn
  have expand : ∀ i : ℕ, ((i : ℝ) - scalerMean n) ^ 2
      = (i : ℝ) ^ 2 - 2 * scalerMean n * (i : ℝ) + scalerMean n ^ 2 := by
    intro i; ring
  calc (∑ i ∈ range n, ((i : ℝ) - scalerMean n) ^ 2)
      = (∑ i ∈ range n, (i : ℝ) ^ 2)
          - 2 * scalerMean n * (∑ i ∈ range n, (i : ℝ))
          + n * scalerMean n ^ 2 := by
        simp only [expand]
        rw [Finset.sum_add_distrib, Finset.sum_sub_distrib, Finset.mul_sum,
          Finset.sum_const, Finset.card_range]
        ring
    _ = n * (((n : ℝ) - 1) * ((n : ℝ) + 1) / 12) := by
        rw [sum_range_cast, sum_range_sq_cast, hmean]
        field_simp
        ring

lemma scalerStd_eq (n : ℕ) (hn : 1 ≤ n) : scalerStd n = stdDays n := by
  have hn0 : (n : ℝ) ≠ 0 := Nat.cast_ne_zero.mpr (by omega)
  rw [scalerStd, stdDays, sum_sq_dev_eq n hn, mul_div_cancel_left₀ _ hn0]

lemma stdDays_pos (n : ℕ) (hn : 2 ≤ n) : 0 < stdDays n := by
  have h1 : (1 : ℝ) ≤ (n : ℝ) - 1 := by
    have : (2 : ℝ) ≤ (n : ℝ) := by exact_mod_cast hn
    linarith
  have h2 : (0 : ℝ) < (n : ℝ) + 1 := by positivity
  have : (0 : ℝ) < ((n : ℝ) - 1) * ((n : ℝ) + 1) / 12 := by
    apply div_pos (mul_pos (by linarith) h2)
    norm_num
  exact Real.sqrt_pos.mpr this

/-! ### Affine invariance of the OLS fit -/

lemma sampleMean_affine (n : ℕ) (hn : 1 ≤ n) (x : ℕ → ℝ) (a s : ℝ) :
    sampleMean n (fun i => (x i - a) / s) = (sampleMean n x - a) / s := by
  have hn0 : (n : ℝ) ≠ 0 := Nat.cast_ne_zero.mpr (by omega)
  by_cases hs : s = 0
  · simp [sampleMean, hs]
  · simp only [sampleMean, sub_div]
    rw [Finset.sum_sub_distrib, Finset.sum_const, Finset.card_range,
      ← Finset.sum_div, nsmul_eq_mul]
    field_simp
    ring

lemma olsSlope_affine (n : ℕ) (hn : 1 ≤ n) (x y : ℕ → ℝ) (a s : ℝ)
    (hs : s ≠ 0) :
    olsSlope n (fun i => (x i - a) / s) y = s * olsSlope n x y := by
  have hdev : ∀ i : ℕ, (x i - a) / s - sampleMean n (fun j => (x j - a) / s)
      = (x i - sampleMean n x) / s := by
    intro i
    rw [sampleMean_affine n hn x a s]
    ring
  rw [olsSlope, olsSlope]
  simp only [hdev, div_mul_eq_mul_div, div_pow]
  rw [← Finset.sum_div, ← Finset.sum_div]
  set N := ∑ i ∈ range n, (x i - sampleMean n x) * (y i - sampleMean n y)
  set D := ∑ i ∈ range n, (x i - sampleMean n x) ^ 2
  by_cases hD : D = 0
  · simp [hD]
  · field_simp
    ring

lemma olsIntercept_affine (n : ℕ) (hn : 1 ≤ n) (x y : ℕ → ℝ) (a s : ℝ)
    (hs : s ≠ 0) :
    olsIntercept n (fun i => (x i - a) / s) y
      = sampleMean n y - s * olsSlope n x y * ((sampleMean n x - a) / s) := by
  rw [olsIntercept, sampleMean_affine n hn x a s, olsSlope_affine n hn x y a s hs]

/-! ### Provider results and payload shapes

`yf.Ticker(ticker).history(...)` yields a data frame whose rows we model
as `(date, Close)` pairs, and `stock.info.get('longName', ticker)` is
modelled by an optional long name.  A Python exception anywhere in the
`try` block is an `Except.error` carrying its message. -/

/-- A successful provider interaction: the rows of `df` and the optional
`longName` from `stock.info`. -/
structure FetchOk where
  rows : List (String × ℝ)
  longName : Option String

/-- `df['Close'].values` indexed by row number. -/
def closeAt (rows : List (String × ℝ)) (i : ℕ) : ℝ :=
  (rows.getD i ("", 0)).2

/-- `df.index.strftime('%Y-%m-%d')` indexed by row number. -/
def dateAt (rows : List (String × ℝ)) (i : ℕ) : String :=
  (rows.getD i ("", 0)).1

/-- Fixed-point rendering of an integer `v` that stands for a value
already scaled by `10 ^ d`. -/
def renderFixed (d : ℕ) (v : ℤ) : String :=
  let digits := toString v.natAbs
  let padded :=
    if digits.length < d + 1 then
      String.mk (List.replicate (d + 1 - digits.length) '0') ++ digits
    else digits
  (if v < 0 then "-" else "") ++ padded.dropRight d ++ "." ++ padded.takeRight d

/-- Modelled from the spec: Python fixed-point float formatting with `d`
fractional digits (the `:.4f` / `:.2f` format specifiers), as rounding to
`d` decimal places followed by fixed-point printing; decimal ties are
modelled as rounding half away from zero upwards. -/
noncomputable def formatFixed (d : ℕ) (x : ℝ) : String :=
  renderFixed d (round (x * 10 ^ d))

/-- The dictionary returned by the success path and by the exception
path of `generate_regression_data`. -/
structure FullRegPayload where
  prices : List (String × ℝ)
  regression : List (String × ℝ)
  companyName : String
  slope : ℝ
  intercept : ℝ
  formula : String

/-- Result of `generate_regression_data`: either the bare empty dict
(the `df.empty` branch returns a literal `return` of an empty dict) or a
fully shaped payload. -/
inductive RegResult
  | bare
  | payload (p : FullRegPayload)

/-- The exception-branch payload of `generate_regression_data`. -/
def defaultRegPayload (ticker : String) : FullRegPayload :=
  { prices := []
    regression := []
    companyName := ticker
    slope := 0
    intercept := 0
    formula := "price = 0 * days + 0" }

/-- The success-branch payload of `generate_regression_data`: fit on the
standardised index, predictions `intercept + coef * z i`, and the
unscaled-coefficient recovery. -/
noncomputable def successRegPayload (ticker : String) (f : FetchOk) : FullRegPayload :=
  let n := f.rows.length
  let coef := olsSlope n (zscore n) (closeAt f.rows)
  let icept := olsIntercept n (zscore n) (closeAt f.rows)
  { prices := f.rows
    regression := (List.range n).map fun i => (dateAt f.rows i, icept + coef * zscore n i)
    companyName := f.longName.getD ticker
    slope := actualSlope n (closeAt f.rows)
    intercept := actualIntercept n (closeAt f.rows)
    formula := "price = " ++ formatFixed 4 (actualSlope n (closeAt f.rows))
        ++ " * days + " ++ formatFixed 2 (actualIntercept n (closeAt f.rows)) }

/-- `generate_regression_data`, with the provider interaction as a
parameter: exceptions give the default payload, an empty frame gives the
bare empty dict, and otherwise the regression payload is built. -/
noncomputable def generate_regression_data (ticker : String)
    (fetch : Except String FetchOk) : RegResult :=
  match fetch with
  | .error _ => .payload (defaultRegPayload ticker)
  | .ok f => if f.rows.isEmpty then .bare else .payload (successRegPayload ticker f)

/-- Result of `generate_data`: the bare empty dict on an empty frame, or
the prices/companyName payload. -/
inductive DataResult
  | bare
  | payload (prices : List (String × ℝ)) (companyName : String)

/-- `generate_data`, with the provider interaction as a parameter. -/
def generate_data (ticker : String) (fetch : Except String FetchOk) : DataResult :=
  match fetch with
  | .error _ => .payload [] ticker
  | .ok f => if f.rows.isEmpty then .bare else .payload f.rows (f.longName.getD ticker)

/-! ### Date-window resolution shared by both fetch helpers -/

/-- Python truthiness of an optional string query parameter: falsy when
absent or empty. -/
def pyTruthy : Option String → Bool
  | none => false
  | some s => !(s == "")

/-- The date-resolution prefix of `generate_regression_data` and
`generate_data`.  Datetimes are modelled as integers (days on the
caller's local clock): `now` is `datetime.now()` and `parse` stands for
`datetime.strptime(_, '%Y-%m-%d')`.  If both parameters are truthy they
are parsed literally; otherwise `end = now - 1 day` and
`start = end - 90 days`. -/
def resolveDates (start_date end_date : Option String) (parse : String → ℤ)
    (now : ℤ) : ℤ × ℤ :=
  match start_date, end_date with
  | some s, some e =>
      if s ≠ "" ∧ e ≠ "" then (parse s, parse e)
      else (now - 1 - 90, now - 1)
  | _, _ => (now - 1 - 90, now - 1)

/-! ### Python string helpers used by the handlers -/

/-- Python's `str.lower()` as used on the `regression` query parameter:
character-wise lowercasing. -/
def pyLower (s : String) : String :=
  String.mk (s.data.map Char.toLower)

/-- Splitting a character list on a separator character, keeping empty
pieces — the behaviour of Python's `str.split(sep)` for a one-character
separator (`''.split(',') == ['']`). -/
def splitOnChar (sep : Char) : List Char → List (List Char)
  | [] => [[]]
  | c :: cs =>
      if c = sep then [] :: splitOnChar sep cs
      else
        match splitOnChar sep cs with
        | [] => [[c]]
        | p :: ps => (c :: p) :: ps

/-- Python's `str.split(sep)` for a one-character separator. -/
def pySplit (s : String) (sep : Char) : List String :=
  (splitOnChar sep s.data).map String.mk

/-! ### The `/get-data` endpoint -/

/-- Query parameters of `/get-data`; `none` means the parameter is
absent from the request. -/
structure GetDataArgs where
  ticker : Option String
  start_date : Option String
  end_date : Option String
  regression : Option String

/-- `request.args.get('regression', 'false').lower() == 'true'`. -/
def includeRegression (args : GetDataArgs) : Bool :=
  pyLower (args.regression.getD "false") == "true"

/-- Body of a `/get-data` response: a regression payload or a plain one. -/
inductive GetDataBody
  | reg (r : RegResult)
  | plain (r : DataResult)

/-- The `get_data` handler: dispatches on the regression flag, defaults
the ticker to `"AAPL"`, and always answers HTTP 200 with the chosen
body. -/
noncomputable def get_data (args : GetDataArgs) (fetch : Except String FetchOk) :
    ℕ × GetDataBody :=
  let ticker := args.ticker.getD "AAPL"
  if includeRegression args then
    (200, .reg (generate_regression_data ticker fetch))
  else
    (200, .plain (generate_data ticker fetch))

/-! ### The `/analyze-hedge` endpoint -/

/-- Body of an `/analyze-hedge` response: an error dict or the verbatim
analyzer result. -/
inductive HedgeBody (α : Type)
  | err (msg : String)
  | ok (result : α)

/-- The `analyze_hedge` handler, with the external
`analyze_hedge_relationship` passed as a parameter.  `if not ticker1 or
not ticker2` rejects absent or empty tickers with HTTP 400. -/
def analyze_hedge {α : Type} (ticker1 ticker2 start_date end_date : Option String)
    (analyze_hedge_relationship :
      String → String → Option String → Option String → α) :
    ℕ × HedgeBody α :=
  match ticker1, ticker2 with
  | some t1, some t2 =>
      if t1 = "" ∨ t2 = "" then (400, .err "Both tickers are required")
      else (200, .ok (analyze_hedge_relationship t1 t2 start_date end_date))
  | _, _ => (400, .err "Both tickers are required")

/-! ### The `/portfolio-metrics` endpoint -/

/-- The HTTP 200 payload of `/portfolio-metrics`: the five keys built in
the handler.  `W` is the type of `final_weights.tolist()` and `D` the
result type of `prepare_portfolio_data`. -/
structure MetricsBody (W D : Type) where
  final_weights : W
  final_return : ℝ
  final_volatility : ℝ
  final_sharpe_ratio : ℝ
  data : D

/-- Body of a `/portfolio-metrics` response. -/
inductive MetricsResult (β : Type)
  | err (msg : String)
  | ok (body : β)

/-- The `try` block of `get_portfolio_metrics`: run
`calculate_portfolio_metrics`, then `prepare_portfolio_data`, and shape
the success payload; a raised exception becomes HTTP 500 carrying
`str(e)`. -/
def runPortfolio {W O D : Type}
    (calculate_portfolio_metrics :
      List String → Option String → Option String →
        Except String (W × ℝ × ℝ × ℝ × O × O × O))
    (prepare_portfolio_data : O → O → O → Except String D)
    (start_date end_date : Option String) (tickers : List String) :
    ℕ × MetricsResult (MetricsBody W D) :=
  match calculate_portfolio_metrics tickers start_date end_date with
  | .error e => (500, .err e)
  | .ok (w, ret, vol, sharpe, opts, optv, rets) =>
      match prepare_portfolio_data opts optv rets with
      | .error e => (500, .err e)
      | .ok pd => (200, .ok ⟨w, ret, vol, sharpe, pd⟩)

/-- The `get_portfolio_metrics` handler:
`tickers = request.args.get('tickers', '').split(',')`, then
`if not tickers or tickers[0] == ''` rejects with HTTP 400, and
otherwise the try block runs with the split list. -/
def get_portfolio_metrics {W O D : Type}
    (tickersArg start_date end_date : Option String)
    (calculate_portfolio_metrics :
      List String → Option String → Option String →
        Except String (W × ℝ × ℝ × ℝ × O × O × O))
    (prepare_portfolio_data : O → O → O → Except String D) :
    ℕ × MetricsResult (MetricsBody W D) :=
  match pySplit (tickersArg.getD "") ',' with
  | [] => (400, .err "At least one ticker is required")
  | t0 :: rest =>
      if t0 = "" then (400, .err "At least one ticker is required")
      else runPortfolio calculate_portfolio_metrics prepare_portfolio_data
        start_date end_date (t0 :: rest)

/-! ### Theorems -/

lemma olsSlope_zscore (n : ℕ) (hn : 2 ≤ n) (y : ℕ → ℝ) :
    olsSlope n (zscore n) y = scalerStd n * olsSlope n (fun i => (i : ℝ)) y := by
  have hn1 : 1 ≤ n := by omega
  have hs : scalerStd n ≠ 0 := by
    rw [scalerStd_eq n hn1]
    exact ne_of_gt (stdDays_pos n hn)
  exact olsSlope_affine n hn1 (fun i => (i : ℝ)) y (scalerMean n) (scalerStd n) hs

lemma olsIntercept_zscore (n : ℕ) (hn : 2 ≤ n) (y : ℕ → ℝ) :
    olsIntercept n (zscore n) y = sampleMean n y := by
  have hn1 : 1 ≤ n := by omega
  have hs : scalerStd n ≠ 0 := by
    rw [scalerStd_eq n hn1]
    exact ne_of_gt (stdDays_pos n hn)
  calc olsIntercept n (zscore n) y
      = sampleMean n y - scalerStd n * olsSlope n (fun i => (i : ℝ)) y *
          ((sampleMean n (fun i => (i : ℝ)) - scalerMean n) / scalerStd n) :=
        olsIntercept_affine n hn1 (fun i => (i : ℝ)) y (scalerMean n) (scalerStd n) hs
    _ = sampleMean n y := by rw [scalerMean]; ring

lemma actualSlope_eq_plain (n : ℕ) (hn : 2 ≤ n) (y : ℕ → ℝ) :
    actualSlope n y = olsSlope n (fun i => (i : ℝ)) y := by
  have hn1 : 1 ≤ n := by omega
  have hstd := scalerStd_eq n hn1
  have hs : stdDays n ≠ 0 := ne_of_gt (stdDays_pos n hn)
  rw [actualSlope, olsSlope_zscore n hn y, hstd, mul_div_cancel_left₀ _ hs]

lemma actualIntercept_eq_plain (n : ℕ) (hn : 2 ≤ n) (y : ℕ → ℝ) :
    actualIntercept n y = olsIntercept n (fun i => (i : ℝ)) y := by
  have hn1 : 1 ≤ n := by omega
  have hstd := scalerStd_eq n hn1
  have hs : stdDays n ≠ 0 := ne_of_gt (stdDays_pos n hn)
  have hx : sampleMean n (fun i => (i : ℝ)) = meanDays n := scalerMean_eq n hn1
  rw [actualIntercept, olsIntercept_zscore n hn y, olsSlope_zscore n hn y, hstd,
    olsIntercept, hx]
  field_simp
  ring

/-- C1: for a price series with at least two observations, the unscaled
slope and intercept recovered by `generate_regression_data` from the fit
on the standardised day index coincide exactly with the
ordinary-least-squares fit of the closing prices against the plain
zero-based day index. -/
theorem regression_payload_recovers_unscaled_ols (ticker : String) (f : FetchOk)
    (hn : 2 ≤ f.rows.length) :
    (successRegPayload ticker f).slope
        = olsSlope f.rows.length (fun i => (i : ℝ)) (closeAt f.rows) ∧
    (successRegPayload ticker f).intercept
        = olsIntercept f.rows.length (fun i => (i : ℝ)) (closeAt f.rows) := by
  constructor
  · show actualSlope f.rows.length (closeAt f.rows) = _
    exact actualSlope_eq_plain f.rows.length hn (closeAt f.rows)
  · show actualIntercept f.rows.length (closeAt f.rows) = _
    exact actualIntercept_eq_plain f.rows.length hn (closeAt f.rows)

theorem regression_payload_recovers_unscaled_ols_witness :
    2 ≤ (FetchOk.mk [("2024-01-02", (1 : ℝ)), ("2024-01-03", 2)] none).rows.length ∧
    ((successRegPayload "AAPL" (FetchOk.mk [("2024-01-02", (1 : ℝ)), ("2024-01-03", 2)] none)).slope
        = olsSlope 2 (fun i => (i : ℝ))
            (closeAt [("2024-01-02", (1 : ℝ)), ("2024-01-03", 2)]) ∧
     (successRegPayload "AAPL" (FetchOk.mk [("2024-01-02", (1 : ℝ)), ("2024-01-03", 2)] none)).intercept
        = olsIntercept 2 (fun i => (i : ℝ))
            (closeAt [("2024-01-02", (1 : ℝ)), ("2024-01-03", 2)])) :=
  ⟨by simp,
   regression_payload_recovers_unscaled_ols "AAPL"
     (FetchOk.mk [("2024-01-02", (1 : ℝ)), ("2024-01-03", 2)] none) (by simp)⟩

/-- C8: `std_days` evaluates to zero for a single-observation series,
and a one-row frame is not caught by the only guard (`df.empty`), so the
unscaled conversion path divides the scaled slope by zero. -/
theorem single_observation_divides_by_zero :
    stdDays 1 = 0 ∧
    ∀ (ticker : String) (f : FetchOk), f.rows.length = 1 →
      generate_regression_data ticker (.ok f) = .payload (successRegPayload ticker f) ∧
      (successRegPayload ticker f).slope
        = olsSlope 1 (zscore 1) (closeAt f.rows) / stdDays 1 := by
  constructor
  · rw [stdDays]
    norm_num
  · intro ticker f h
    have hne : f.rows.isEmpty = false := by
      cases hr : f.rows with
      | nil => rw [hr] at h; simp at h
      | cons a l => simp [hr]
    constructor
    · simp [generate_regression_data, hne]
    · have hslope : (successRegPayload ticker f).slope
          = actualSlope f.rows.length (closeAt f.rows) := rfl
      rw [hslope, h, actualSlope]

theorem single_observation_divides_by_zero_witness :
    generate_regression_data "X" (.ok (FetchOk.mk [("2024-01-02", (5 : ℝ))] none))
        = .payload (successRegPayload "X" (FetchOk.mk [("2024-01-02", (5 : ℝ))] none)) ∧
    (successRegPayload "X" (FetchOk.mk [("2024-01-02", (5 : ℝ))] none)).slope
        = olsSlope 1 (zscore 1) (closeAt [("2024-01-02", (5 : ℝ))]) / stdDays 1 :=
  single_observation_divides_by_zero.2 "X" (FetchOk.mk [("2024-01-02", (5 : ℝ))] none) rfl

/-- C2 counterexample: with a zero-row provider response and regression
enabled, the `/get-data` handler answers HTTP 200 with the bare empty
dict, which is not the default-shaped regression payload the claim
describes. -/
theorem empty_result_is_not_default_shape :
    get_data (GetDataArgs.mk (some "AAPL") none none (some "true"))
        (.ok (FetchOk.mk [] none)) = (200, .reg .bare) ∧
    ((200 : ℕ), GetDataBody.reg .bare)
      ≠ ((200 : ℕ), GetDataBody.reg (.payload (defaultRegPayload "AAPL"))) := by
  constructor
  · rfl
  · intro hcon
    simp at hcon

/-- C2 amended: for a zero-row provider response, `/get-data` answers
HTTP 200 with the bare empty dict in both regression modes; the
default-shaped payload is produced only by the exception branch. -/
theorem empty_result_returns_bare_object (ticker sd ed ln : Option String) :
    get_data (GetDataArgs.mk ticker sd ed (some "true")) (.ok (FetchOk.mk [] ln))
        = (200, .reg .bare) ∧
    get_data (GetDataArgs.mk ticker sd ed none) (.ok (FetchOk.mk [] ln))
        = (200, .plain .bare) :=
  ⟨rfl, rfl⟩

/-- C3 counterexample: for both fetch helpers, the exception-branch
return value differs from the empty-result return value at a concrete
input. -/
theorem exception_branch_differs_from_empty_branch :
    generate_regression_data "AAPL" (.error "boom")
        ≠ generate_regression_data "AAPL" (.ok (FetchOk.mk [] none)) ∧
    generate_data "AAPL" (.error "boom")
        ≠ generate_data "AAPL" (.ok (FetchOk.mk [] none)) := by
  constructor
  · intro hcon
    simp [generate_regression_data] at hcon
  · intro hcon
    simp [generate_data] at hcon

/-- C3 amended: the exception branch of each fetch helper returns the
fully keyed default payload, while the empty-result branch returns the
bare empty dict; the two differ. -/
theorem exception_branch_returns_default_payload (ticker e : String)
    (ln : Option String) :
    generate_regression_data ticker (.error e) = .payload (defaultRegPayload ticker) ∧
    generate_regression_data ticker (.ok (FetchOk.mk [] ln)) = .bare ∧
    generate_data ticker (.error e) = .payload [] ticker ∧
    generate_data ticker (.ok (FetchOk.mk [] ln)) = .bare :=
  ⟨rfl, rfl, rfl, rfl⟩

/-- C5: when the start and end dates are not both supplied (absent or
empty), the resolved window ends yesterday (`now - 1` day) and starts 90
days before that end; when both are supplied they are parsed literally. -/
theorem date_window_default (sd ed : Option String) (parse : String → ℤ)
    (now : ℤ) :
    (¬ (pyTruthy sd = true ∧ pyTruthy ed = true) →
        resolveDates sd ed parse now = (now - 1 - 90, now - 1) ∧
        (resolveDates sd ed parse now).2 = now - 1 ∧
        (resolveDates sd ed parse now).1 = (resolveDates sd ed parse now).2 - 90) ∧
    (∀ s e : String, sd = some s → ed = some e → s ≠ "" → e ≠ "" →
        resolveDates sd ed parse now = (parse s, parse e)) := by
  constructor
  · intro h
    have hres : resolveDates sd ed parse now = (now - 1 - 90, now - 1) := by
      cases sd with
      | none => cases ed <;> rfl
      | some s =>
        cases ed with
        | none => rfl
        | some e =>
          have hcon : ¬ (s ≠ "" ∧ e ≠ "") := by
            intro hc
            exact h ⟨by simp [pyTruthy, hc.1], by simp [pyTruthy, hc.2]⟩
          simp [resolveDates, hcon]
    exact ⟨hres, by rw [hres], by rw [hres]⟩
  · intro s e hs he hs' he'
    subst hs
    subst he
    simp [resolveDates, hs', he']

theorem date_window_default_witness :
    resolveDates none none (fun _ => 0) 1000 = (1000 - 1 - 90, 1000 - 1) ∧
    resolveDates (some "2024-01-01") (some "2024-03-31") (fun _ => 7) 1000
      = (7, 7) :=
  ⟨((date_window_default none none (fun _ => 0) 1000).1 (by decide)).1,
   (date_window_default (some "2024-01-01") (some "2024-03-31") (fun _ => 7) 1000).2
     "2024-01-01" "2024-03-31" rfl rfl (by decide) (by decide)⟩

/-- C7: `/analyze-hedge` rejects a request with either ticker absent or
empty with HTTP 400 and the fixed error body, and with both tickers
present returns the analyzer result verbatim with HTTP 200. -/
theorem hedge_requires_both_tickers {α : Type} (sd ed : Option String)
    (analyzer : String → String → Option String → Option String → α) :
    (∀ t1 t2 : Option String, ¬ (pyTruthy t1 = true ∧ pyTruthy t2 = true) →
        analyze_hedge t1 t2 sd ed analyzer
          = (400, .err "Both tickers are required")) ∧
    (∀ s1 s2 : String, s1 ≠ "" → s2 ≠ "" →
        analyze_hedge (some s1) (some s2) sd ed analyzer
          = (200, .ok (analyzer s1 s2 sd ed))) := by
  constructor
  · intro t1 t2 h
    cases t1 with
    | none => cases t2 <;> rfl
    | some s1 =>
      cases t2 with
      | none => rfl
      | some s2 =>
        have hdis : s1 = "" ∨ s2 = "" := by
          by_contra hc
          push_neg at hc
          exact h ⟨by simp [pyTruthy, hc.1], by simp [pyTruthy, hc.2]⟩
        cases hdis with
        | inl h' => simp [analyze_hedge, h']
        | inr h' => simp [analyze_hedge, h']
  · intro s1 s2 h1 h2
    simp [analyze_hedge, h1, h2]

theorem hedge_requires_both_tickers_witness :
    analyze_hedge (some "AAPL") none none none (fun _ _ _ _ => (0 : ℕ))
        = (400, .err "Both tickers are required") ∧
    analyze_hedge (some "AAPL") (some "MSFT") none none (fun _ _ _ _ => (0 : ℕ))
        = (200, .ok 0) :=
  ⟨(hedge_requires_both_tickers none none (fun _ _ _ _ => (0 : ℕ))).1
      (some "AAPL") none (by decide),
   (hedge_requires_both_tickers none none (fun _ _ _ _ => (0 : ℕ))).2
      "AAPL" "MSFT" (by decide) (by decide)⟩

/-- C10: `/get-data` takes the regression path iff the lowercased
`regression` parameter equals `"true"`; `"1"`, `"yes"` and an absent
parameter (defaulting to `"false"`) take the plain path, and the ticker
defaults to `"AAPL"` when absent. -/
theorem get_data_dispatch (args : GetDataArgs) (fetch : Except String FetchOk) :
    (includeRegression args = true ↔
        pyLower (args.regression.getD "false") = "true") ∧
    (includeRegression args = true →
        get_data args fetch
          = (200, .reg (generate_regression_data (args.ticker.getD "AAPL") fetch))) ∧
    (includeRegression args = false →
        get_data args fetch
          = (200, .plain (generate_data (args.ticker.getD "AAPL") fetch))) ∧
    includeRegression
      (GetDataArgs.mk args.ticker args.start_date args.end_date (some "1")) = false ∧
    includeRegression
      (GetDataArgs.mk args.ticker args.start_date args.end_date (some "yes")) = false ∧
    includeRegression
      (GetDataArgs.mk args.ticker args.start_date args.end_date none) = false := by
  refine ⟨?_, ?_, ?_, rfl, rfl, rfl⟩
  · simp [includeRegression]
  · intro h
    simp [get_data, h]
  · intro h
    simp [get_data, h]

theorem get_data_dispatch_witness :
    get_data (GetDataArgs.mk none none none (some "TRUE")) (.error "x")
        = (200, .reg (generate_regression_data "AAPL" (.error "x"))) ∧
    get_data (GetDataArgs.mk none none none (some "1")) (.error "x")
        = (200, .plain (generate_data "AAPL" (.error "x"))) :=
  ⟨(get_data_dispatch (GetDataArgs.mk none none none (some "TRUE"))
      (.error "x")).2.1 (by decide),
   (get_data_dispatch (GetDataArgs.mk none none none (some "1"))
      (.error "x")).2.2.1 (by decide)⟩

lemma runPortfolio_fst_ne_400 {W O D : Type}
    (calcFn : List String → Option String → Option String →
      Except String (W × ℝ × ℝ × ℝ × O × O × O))
    (prep : O → O → O → Except String D)
    (sd ed : Option String) (tickers : List String) :
    (runPortfolio calcFn prep sd ed tickers).1 ≠ 400 := by
  cases hc : calcFn tickers sd ed with
  | error e => simp [runPortfolio, hc]
  | ok tup =>
    obtain ⟨w, ret, vol, sharpe, o1, o2, o3⟩ := tup
    cases hp : prep o1 o2 o3 with
    | error e => simp [runPortfolio, hc, hp]
    | ok pd => simp [runPortfolio, hc, hp]

/-- C6: `/portfolio-metrics` rejects an absent or empty `tickers`
parameter with HTTP 400 and an error body, and for the string
`"AAPL,MSFT"` delegates to the portfolio computation with the list
`["AAPL", "MSFT"]`. -/
theorem portfolio_tickers_validation {W O D : Type} (sd ed : Option String)
    (calcFn : List String → Option String → Option String →
      Except String (W × ℝ × ℝ × ℝ × O × O × O))
    (prep : O → O → O → Except String D) :
    get_portfolio_metrics none sd ed calcFn prep
        = (400, .err "At least one ticker is required") ∧
    get_portfolio_metrics (some "") sd ed calcFn prep
        = (400, .err "At least one ticker is required") ∧
    get_portfolio_metrics (some "AAPL,MSFT") sd ed calcFn prep
        = runPortfolio calcFn prep sd ed ["AAPL", "MSFT"] :=
  ⟨rfl, rfl, rfl⟩

/-- C9: `/portfolio-metrics` answers HTTP 400 exactly when the first
element of the comma-split tickers string is empty: `",AAPL"` is
rejected although it contains a non-empty ticker, while `"AAPL,"`
passes validation and the empty element is forwarded to the portfolio
computation. -/
theorem portfolio_rejects_iff_first_split_empty {W O D : Type}
    (sd ed : Option String)
    (calcFn : List String → Option String → Option String →
      Except String (W × ℝ × ℝ × ℝ × O × O × O))
    (prep : O → O → O → Except String D) :
    (∀ tickersArg : Option String,
        (get_portfolio_metrics tickersArg sd ed calcFn prep).1 = 400 ↔
          (pySplit (tickersArg.getD "") ',').headD "" = "") ∧
    get_portfolio_metrics (some ",AAPL") sd ed calcFn prep
        = (400, .err "At least one ticker is required") ∧
    get_portfolio_metrics (some "AAPL,") sd ed calcFn prep
        = runPortfolio calcFn prep sd ed ["AAPL", ""] := by
  refine ⟨?_, rfl, rfl⟩
  intro tickersArg
  cases hsplit : pySplit (tickersArg.getD "") ',' with
  | nil => simp [get_portfolio_metrics, hsplit]
  | cons t0 rest =>
    by_cases ht : t0 = ""
    · simp [get_portfolio_metrics, hsplit, ht]
    · have hne := runPortfolio_fst_ne_400 calcFn prep sd ed (t0 :: rest)
      simp [get_portfolio_metrics, hsplit, ht, hne]

/-- C4: past ticker validation, `/portfolio-metrics` maps any exception
raised by `calculate_portfolio_metrics` or `prepare_portfolio_data` to
HTTP 500 with the exception message as the error body, and success to
HTTP 200 with the keys `final_weights`, `final_return`,
`final_volatility`, `final_sharpe_ratio` and `data`. -/
theorem portfolio_metrics_error_policy {W O D : Type}
    (tickersArg sd ed : Option String)
    (calcFn : List String → Option String → Option String →
      Except String (W × ℝ × ℝ × ℝ × O × O × O))
    (prep : O → O → O → Except String D)
    (hvalid : (pySplit (tickersArg.getD "") ',').headD "" ≠ "") :
    (∀ e, calcFn (pySplit (tickersArg.getD "") ',') sd ed = .error e →
        get_portfolio_metrics tickersArg sd ed calcFn prep = (500, .err e)) ∧
    (∀ w ret vol sharpe o1 o2 o3,
        calcFn (pySplit (tickersArg.getD "") ',') sd ed
            = .ok (w, ret, vol, sharpe, o1, o2, o3) →
        (∀ e, prep o1 o2 o3 = .error e →
            get_portfolio_metrics tickersArg sd ed calcFn prep = (500, .err e)) ∧
        (∀ pd, prep o1 o2 o3 = .ok pd →
            get_portfolio_metrics tickersArg sd ed calcFn prep
              = (200, .ok (MetricsBody.mk w ret vol sharpe pd)))) := by
  cases hsplit : pySplit (tickersArg.getD "") ',' with
  | nil => rw [hsplit] at hvalid; simp at hvalid
  | cons t0 rest =>
    rw [hsplit] at hvalid
    have ht : t0 ≠ "" := by simpa using hvalid
    have hred : get_portfolio_metrics tickersArg sd ed calcFn prep
        = runPortfolio calcFn prep sd ed (t0 :: rest) := by
      simp [get_portfolio_metrics, hsplit, ht]
    constructor
    · intro e he
      rw [hred]
      simp [runPortfolio, he]
    · intro w ret vol sharpe o1 o2 o3 hcalc
      constructor
      · intro e hprep
        rw [hred]
        simp [runPortfolio, hcalc, hprep]
      · intro pd hprep
        rw [hred]
        simp [runPortfolio, hcalc, hprep]

theorem portfolio_metrics_error_policy_witness :
    get_portfolio_metrics (some "AAPL") none none
        (fun _ _ _ => (Except.error "boom" : Except String (ℕ × ℝ × ℝ × ℝ × ℕ × ℕ × ℕ)))
        (fun _ _ _ => (Except.ok (0 : ℕ) : Except String ℕ))
      = (500, .err "boom") :=
  (portfolio_metrics_error_policy (some "AAPL") none none
      (fun _ _ _ => (Except.error "boom" : Except String (ℕ × ℝ × ℝ × ℝ × ℕ × ℕ × ℕ)))
      (fun _ _ _ => (Except.ok (0 : ℕ) : Except String ℕ))
      (by decide)).1 "boom" rfl
